import Mathlib

/-!
Shallow embedding of the `dgs` (docker-game-servers) core: the static game
catalog, the container-record projection, the listing filter builder, the
create-request assembly and the temporary-server lifecycle orchestrator,
together with theorems settling the specification's claims about them.

Strings are modelled as lists of characters; the container runtime is
modelled as an oracle of per-operation results so that the orchestrator's
call sequence becomes an explicit event trace.
-/

set_option maxRecDepth 8000

deriving instance DecidableEq for Except

/-- Strings are modelled as lists of characters so that splitting and
substring reasoning stays elementary. -/
abbrev Str : Type := List Char

/-- Converts a Lean string literal into the character-list representation. -/
def S (s : String) : Str := s.toList

/-- The protocol of a container port (bollard `PortTypeEnum`). -/
inductive PortTypeEnum
  | EMPTY
  | TCP
  | UDP
  | SCTP
deriving DecidableEq

/-- Lowercase display form of a protocol, as produced by its `Display`
implementation and used in port-binding keys. -/
def PortTypeEnum.display : PortTypeEnum → Str
  | .EMPTY => S ""
  | .TCP => S "tcp"
  | .UDP => S "udp"
  | .SCTP => S "sctp"

/-- Container lifecycle states (bollard `ContainerStateStatusEnum`). -/
inductive ContainerStateStatusEnum
  | EMPTY
  | CREATED
  | RUNNING
  | PAUSED
  | RESTARTING
  | REMOVING
  | EXITED
  | DEAD
deriving DecidableEq

/-- Parsing of a state string (bollard `ContainerStateStatusEnum::from_str`). -/
def statusFromStr (s : Str) : Option ContainerStateStatusEnum :=
  if s = S "" then some ContainerStateStatusEnum.EMPTY
  else if s = S "created" then some ContainerStateStatusEnum.CREATED
  else if s = S "running" then some ContainerStateStatusEnum.RUNNING
  else if s = S "paused" then some ContainerStateStatusEnum.PAUSED
  else if s = S "restarting" then some ContainerStateStatusEnum.RESTARTING
  else if s = S "removing" then some ContainerStateStatusEnum.REMOVING
  else if s = S "exited" then some ContainerStateStatusEnum.EXITED
  else if s = S "dead" then some ContainerStateStatusEnum.DEAD
  else none

/-- Display form of a state (bollard `Display`, the serialized value). -/
def statusDisplay : ContainerStateStatusEnum → Str
  | .EMPTY => S ""
  | .CREATED => S "created"
  | .RUNNING => S "running"
  | .PAUSED => S "paused"
  | .RESTARTING => S "restarting"
  | .REMOVING => S "removing"
  | .EXITED => S "exited"
  | .DEAD => S "dead"

/-- The version-configuration strategy of a game (`VersionConfiguration`). -/
inductive VersionConfiguration
  | Tag
  | Env (name : Str)
  | None
deriving DecidableEq

/-- Version listing help (`VersionLs`). -/
inductive VersionLs
  | Help (text : Str)
  | None
deriving DecidableEq

/-- Version metadata of a game (`Version`). -/
structure Version where
  config : VersionConfiguration
  ls : VersionLs
deriving DecidableEq

/-- The closed set of supported game identifiers (`GameName`). -/
inductive GameName
  | Minecraft
  | Factorio
  | Valheim
deriving DecidableEq

/-- The `Deref<Target = str>` implementation of `GameName`. -/
def GameName.deref : GameName → Str
  | .Minecraft => S "minecraft"
  | .Factorio => S "factorio"
  | .Valheim => S "valheim"

/-- Port policy of a game (`PortConfiguration`). -/
inductive PortConfiguration
  | NonConfigurable (ports : List (Nat × PortTypeEnum))
  | SinglePort (port : Nat) (protocol : PortTypeEnum)
deriving DecidableEq

/-- A catalog entry (`Game`). -/
structure Game where
  name : GameName
  image : Str
  ports : PortConfiguration
  envs : List Str
  version : Version
deriving DecidableEq

/-- The minecraft catalog entry. -/
def minecraftGame : Game where
  name := GameName.Minecraft
  image := S "docker.io/itzg/minecraft-server"
  ports := PortConfiguration.SinglePort 25565 PortTypeEnum.TCP
  envs := [S "EULA=TRUE"]
  version :=
    { config := VersionConfiguration.Env (S "VERSION")
      ls := VersionLs.Help (S "You can either specify LATEST (the default) to run the latest stable version, SNAPSHOT to run the latest snapshot, or you can specify the version directly e.g. 1.7.2 or 21w11a ") }

/-- The factorio catalog entry. -/
def factorioGame : Game where
  name := GameName.Factorio
  image := S "docker.io/factoriotools/factorio"
  ports := PortConfiguration.SinglePort 34197 PortTypeEnum.UDP
  envs := []
  version :=
    { config := VersionConfiguration.Tag
      ls := VersionLs.Help (S "You can either specify latest (the default) to run the latest (maybe experimental) version, stable to run the latest stable version, or you can specify the version directly e.g. 1.1 or 0.15.40. You can also look for availible versions at https://hub.docker.com/r/factoriotools/factorio/tags.") }

/-- The valheim catalog entry. -/
def valheimGame : Game where
  name := GameName.Valheim
  image := S "docker.io/lloesche/valheim-server"
  ports := PortConfiguration.NonConfigurable
    [(2456, PortTypeEnum.UDP), (2457, PortTypeEnum.UDP), (2458, PortTypeEnum.UDP)]
  envs := []
  version := { config := VersionConfiguration.None, ls := VersionLs.None }

/-- The static catalog (`GAMES`). -/
def GAMES : List Game := [minecraftGame, factorioGame, valheimGame]

/-- The catalog entry carrying each identifier: the expected target of an
exact name match. -/
def gameOf : GameName → Game
  | GameName.Minecraft => minecraftGame
  | GameName.Factorio => factorioGame
  | GameName.Valheim => valheimGame

/-- Tests whether `needle` occurs at the head of `hay`. -/
def startsWith : Str → Str → Bool
  | _, [] => true
  | [], _ :: _ => false
  | c :: cs, p :: ps => c = p && startsWith cs ps

/-- Substring test (`str::contains` with a string pattern): `needle` occurs
somewhere inside `hay`. -/
def strContains : Str → Str → Bool
  | [], needle => needle.isEmpty
  | c :: cs, needle => startsWith (c :: cs) needle || strContains cs needle

/-- The `str::strip_prefix` operation: returns the remainder when `s` starts
with `p`, and `none` otherwise. -/
def dropPref : Str → Str → Option Str
  | [], s => some s
  | _ :: _, [] => none
  | p :: ps, c :: cs => if p = c then dropPref ps cs else none

/-- The `str::split_once(':')` operation: splits at the first colon. -/
def splitOnceColon : Str → Option (Str × Str)
  | [] => none
  | c :: rest =>
    if c = ':' then some ([], rest)
    else
      match splitOnceColon rest with
      | none => none
      | some (pre, suf) => some (c :: pre, suf)

/-- `Game::find_by_image`: strips a trailing `:tag` (everything from the first
colon on) and matches the bare image path exactly against the catalog. -/
def find_by_image (games : List Game) (image_name : Str) : Option Game :=
  let image_name :=
    match splitOnceColon image_name with
    | some (pre, _) => pre
    | none => image_name
  games.find? (fun g => g.image = image_name)

/-- `FromStr for LowerCaseString`: the clap parsing path, which lowercases. -/
def lowerCaseFromStr (s : Str) : Str := s.map Char.toLower

/-- `From<&str> for LowerCaseString`: wraps the string without lowercasing. -/
def lowerCaseFrom (s : Str) : Str := s

/-- `Game::find_by_name`: compares the stored identifier (lowercased via
`to_lowercase`) for equality with the supplied `LowerCaseString`. -/
def find_by_name (games : List Game) (game_name : Str) : Option Game :=
  games.find? (fun g => game_name = g.name.deref.map Char.toLower)

/-- `FromStr for &Game`: converts the raw string through `From<&str> for
LowerCaseString` (which does not lowercase) and looks it up by name. -/
def gameFromStr (games : List Game) (s : Str) : Except Str Game :=
  match find_by_name games (lowerCaseFrom s) with
  | some g => Except.ok g
  | none => Except.error (S "Unable to find a game matching " ++ s)

/-- A raw runtime port record (bollard `models::Port`). -/
structure ModelsPort where
  ip : Option Str
  private_port : Int
  public_port : Option Int
  typ : Option PortTypeEnum
deriving DecidableEq

/-- A projected port (`Port`): both numbers fit the `u16` range. -/
structure Port where
  public : Nat
  priv : Nat
  typ : PortTypeEnum
deriving DecidableEq

/-- The `i64 -> u16` conversion (`try_into`): succeeds exactly on the
`u16` range. -/
def u16OfInt (i : Int) : Except Str Nat :=
  if 0 ≤ i ∧ i < 65536 then Except.ok i.toNat
  else Except.error (S "out of range integral type conversion attempted")

/-- `TryFrom<models::Port> for Port`: requires a public port and a protocol,
then converts both numbers into the `u16` range (public first). -/
def Port.tryFrom (value : ModelsPort) : Except Str Port :=
  match value with
  | ⟨_, private_port, some public_port, some typ⟩ =>
    match u16OfInt public_port with
    | Except.error e => Except.error e
    | Except.ok pub =>
      match u16OfInt private_port with
      | Except.error e => Except.error e
      | Except.ok priv => Except.ok ⟨pub, priv, typ⟩
  | _ => Except.error (S "Incompatible port config")

/-- A raw runtime container record (bollard `ContainerSummaryInner`),
restricted to the fields the projection inspects; the label map is an
association list. -/
structure ContainerSummaryInner where
  image : Option Str
  names : Option (List Str)
  labels : Option (List (Str × Str))
  ports : Option (List ModelsPort)
  state : Option Str
deriving DecidableEq

/-- The projected server record (`BasicServerInfo`). -/
structure BasicServerInfo where
  name : Str
  game : Game
  tags : List Str
  ports : List Port
  status : ContainerStateStatusEnum
deriving DecidableEq

/-- `TryFrom<ContainerSummaryInner> for BasicServerInfo`: requires all five
fields present and exactly one name; parses the state, resolves the image
against the catalog, strips the `dgs-` label keys into tags and keeps only
the convertible ports (dropping the rest individually). -/
def BasicServerInfo.tryFrom (games : List Game) (c : ContainerSummaryInner) :
    Except Str BasicServerInfo :=
  match c with
  | ⟨some image, some [name], some labels, some ports, some state⟩ =>
    match statusFromStr state with
    | none => Except.error (S "Invalid container state")
    | some status =>
      match find_by_image games image with
      | none => Except.error (S "Container image is not compatible with dgs: " ++ image)
      | some game =>
        Except.ok
          { name := name
            game := game
            tags := labels.filterMap (fun kv => dropPref (S "dgs-") kv.1)
            ports := ports.filterMap (fun p => (Port.tryFrom p).toOption)
            status := status }
  | _ => Except.error (S "Container is not compatible with dgs")

/-- The listing filter (`ServerFilter`): optional name substring, optional
game identifier, requested tags (already lowercased by clap) and optional
state constraint. -/
structure ServerFilter where
  name : Option Str
  game : Option GameName
  tags : List Str
  state : Option ContainerStateStatusEnum
deriving DecidableEq

/-- The `label` entry of the runtime filter built by `ls`: when the tag list
is empty it maps the (empty) tag list to `dgs-` labels and chains the
baseline `dgs` label, otherwise it is the bare baseline label alone. -/
def lsLabelFilter (tags : List Str) : List Str :=
  if tags.isEmpty then
    tags.map (fun tag => S "dgs-" ++ tag) ++ [S "dgs"]
  else
    [S "dgs"]

/-- The game-resolution expression of `ls`: the exact catalog match wrapped
through `ok_or_else`, whose closure performs the substring fallback and
returns either the unique candidate or an error value.  The result mirrors
the Rust type `Result<&Game, Result<&Game, Error>>`: the outer `error`
constructor holds whatever the fallback closure produced. -/
def resolveGameFilter (games : List Game) (game_name : GameName) :
    Except (Except Str Game) Game :=
  match games.find? (fun g => g.name = game_name) with
  | some g => Except.ok g
  | none =>
    let candidates := games.filter (fun g => strContains g.name.deref game_name.deref)
    Except.error
      (match candidates with
        | [g] => Except.ok g
        | [] => Except.error (S "Unable to find a matching game for: " ++ game_name.deref)
        | _ =>
          Except.error
            (S "Unable to find unique matching game for: " ++ game_name.deref ++ S ", found: " ++
              ((candidates.map (fun g => g.name.deref)).intersperse (S ", ")).flatten))

/-- The runtime filter map assembled by `ls`, as an insertion-ordered list of
key/values: the `label` entry, then possibly an `ancestor` entry (only when
the `if let Ok` on the resolution result matches, i.e. only for an exact
catalog hit — fallback results and errors are discarded), then possibly a
`status` entry.  The function is total: no resolution failure escapes. -/
def lsBuildFilters (games : List Game) (f : ServerFilter) : List (Str × List Str) :=
  let filters := [(S "label", lsLabelFilter f.tags)]
  let filters :=
    match f.game with
    | none => filters
    | some game_name =>
      match resolveGameFilter games game_name with
      | Except.ok g => filters ++ [(S "ancestor", [g.image])]
      | Except.error _ => filters
  match f.state with
  | none => filters
  | some st => filters ++ [(S "status", [(statusDisplay st).map Char.toLower])]

/-- The in-process post-filter of `ls`: keeps a projected record exactly when
its lowercased name contains the (lowercased) requested name substring; an
absent name filter becomes the empty string. -/
def lsPostKeep (search_name : Str) (info : BasicServerInfo) : Bool :=
  strContains (info.name.map Char.toLower) search_name

/-- A `PortBinding` of the create request. -/
structure PortBinding where
  host_ip : Option Str
  host_port : Option Str
deriving DecidableEq

/-- Decimal rendering of a number, as `to_string` produces it. -/
def natStr (n : Nat) : Str := (Nat.repr n).toList

/-- The assembled create request (`Config`): image, environment, the
port-binding map (as an insertion-ordered list) and the labels. -/
structure CreateConfig where
  containerName : Str
  image : Str
  env : List Str
  port_bindings : List (Str × Option (List PortBinding))
  labels : List (Str × Str)
deriving DecidableEq

/-- User-supplied options of a temporary server (`GameOptions`). -/
structure GameOptions where
  version : Option Str
deriving DecidableEq

/-- The pure part of `create`: given the host port picked by the allocator
(`pick_unused_port`) and the creation timestamp, assembles the create
request.  A fixed port set is unimplemented (`todo!`, modelled as failure);
a single configurable port yields one binding keyed
`<container port>/<protocol>` whose value carries the allocated host port;
the environment is the catalog's fixed list plus one `NAME=version` entry
when the version strategy is an environment variable and a version was
requested; the baseline `dgs` label is attached.  The `containerName` field
renders the intended `dgs-tmp_<game>_<timestamp>` shape through the name's
`Deref` text; the source's actual evaluation of `game.name` in that
`format!` goes through the unconditionally recursive `Display for GameName`
and diverges (see `gameNameFmtFuel` and `tmpExec`), though only after the
port, environment and label assembly modelled here. -/
def create (picked : Option Nat) (ts : Str) (game : Game) (options : GameOptions) :
    Except Str CreateConfig :=
  match game.ports with
  | PortConfiguration.NonConfigurable _ =>
    Except.error (S "not implemented: NonConfigurable port sets")
  | PortConfiguration.SinglePort port protocol =>
    match picked with
    | none => Except.error (S "Did not find any open port LUL.")
    | some host_port =>
      let pb := [(natStr port ++ S "/" ++ protocol.display,
        some [PortBinding.mk none (some (natStr host_port))])]
      let envs := game.envs ++
        (match game.version.config, options.version with
          | VersionConfiguration.Env name, some version => [name ++ S "=" ++ version]
          | _, _ => [])
      Except.ok
        { containerName := S "dgs-tmp_" ++ game.name.deref ++ S "_" ++ ts
          image := game.image
          env := envs
          port_bindings := pb
          labels := [(S "dgs", S "dgs")] }

/-- The per-operation outcomes of the abstract container runtime, used to
drive one orchestrator run. -/
structure DockerBehavior where
  pullRes : Except Str Unit
  createRes : Except Str Str
  startRes : Except Str Unit
  stopRes : Except Str Unit
  rmRes : Except Str Unit
deriving DecidableEq

/-- One observable runtime call of the orchestrator, with its arguments. -/
inductive TmpEvent
  | pullEv (image : Str) (tag : Option Str)
  | createEv (game : Game) (version : Option Str)
  | startEv (id : Str)
  | stopEv (id : Str)
  | rmEv (id : Str)
deriving DecidableEq

/-- Recognizer for remove events. -/
def isRmEv : TmpEvent → Bool
  | TmpEvent.rmEv _ => true
  | _ => false

/-- Recognizer for pull events. -/
def isPullEv : TmpEvent → Bool
  | TmpEvent.pullEv _ _ => true
  | _ => false

/-- Recognizer for stop events. -/
def isStopEv : TmpEvent → Bool
  | TmpEvent.stopEv _ => true
  | _ => false

/-- The temporary-server orchestrator's written call sequence (`tmp`): pull
(with the requested version as tag exactly when the version strategy is
tag-based), then create, then start, then the interactive pause, then stop,
then remove — each step short-circuiting on error via `?`.  Returns the
trace of runtime calls and the overall outcome.  This models the source
text's sequencing with the runtime as an oracle; the executed process in
fact aborts inside create's container-name formatting (the unconditionally
recursive `Display for GameName`), so of this sequence only the pull
prefix is reachable — `tmpExec` below models the executed flow including
that formatting step. -/
def tmp (d : DockerBehavior) (game : Game) (options : GameOptions) :
    List TmpEvent × Except Str Unit :=
  let pullTag : Option Str :=
    if game.version.config = VersionConfiguration.Tag then options.version else none
  let ev0 := [TmpEvent.pullEv game.image pullTag]
  match d.pullRes with
  | Except.error e => (ev0, Except.error e)
  | Except.ok _ =>
    let ev1 := ev0 ++ [TmpEvent.createEv game options.version]
    match d.createRes with
    | Except.error e => (ev1, Except.error e)
    | Except.ok cid =>
      let ev2 := ev1 ++ [TmpEvent.startEv cid]
      match d.startRes with
      | Except.error e => (ev2, Except.error e)
      | Except.ok _ =>
        let ev3 := ev2 ++ [TmpEvent.stopEv cid]
        match d.stopRes with
        | Except.error e => (ev3, Except.error e)
        | Except.ok _ =>
          let ev4 := ev3 ++ [TmpEvent.rmEv cid]
          match d.rmRes with
          | Except.error e => (ev4, Except.error e)
          | Except.ok _ => (ev4, Except.ok ())

/-- The `Display for GameName` implementation: its body formats `*self`
with the default display directive, which invokes this very same `Display`
implementation again — the recursion makes no progress, so with any
explicit fuel bound the rendering never produces a string. -/
def gameNameFmtFuel : Nat → GameName → Option Str
  | 0, _ => none
  | n + 1, g => gameNameFmtFuel n g

/-- The executed temporary-server flow: like `tmp`, but including the
container-name formatting that `create` performs (inside the
`CreateContainerOptions` value it passes to the runtime), which renders
`game.name` through `Display for GameName`.  A `none` result is the
process aborting inside that formatting (unbounded recursion); the abort
comes after the pull step and before the create call reaches the
runtime. -/
def tmpExec (fuel : Nat) (d : DockerBehavior) (game : Game) (options : GameOptions) :
    Option (List TmpEvent × Except Str Unit) :=
  let pullTag : Option Str :=
    if game.version.config = VersionConfiguration.Tag then options.version else none
  let ev0 := [TmpEvent.pullEv game.image pullTag]
  match d.pullRes with
  | Except.error e => some (ev0, Except.error e)
  | Except.ok _ =>
    match gameNameFmtFuel fuel game.name with
    | none => none
    | some _ =>
      let ev1 := ev0 ++ [TmpEvent.createEv game options.version]
      match d.createRes with
      | Except.error e => some (ev1, Except.error e)
      | Except.ok cid =>
        let ev2 := ev1 ++ [TmpEvent.startEv cid]
        match d.startRes with
        | Except.error e => some (ev2, Except.error e)
        | Except.ok _ =>
          let ev3 := ev2 ++ [TmpEvent.stopEv cid]
          match d.stopRes with
          | Except.error e => some (ev3, Except.error e)
          | Except.ok _ =>
            let ev4 := ev3 ++ [TmpEvent.rmEv cid]
            match d.rmRes with
            | Except.error e => some (ev4, Except.error e)
            | Except.ok _ => some (ev4, Except.ok ())

/-- The catalog entry of the round-trip fixture: name `minecraft`, image
`registry/mc`. -/
def mcFixtureGame : Game where
  name := GameName.Minecraft
  image := S "registry/mc"
  ports := PortConfiguration.SinglePort 25565 PortTypeEnum.TCP
  envs := []
  version := { config := VersionConfiguration.None, ls := VersionLs.None }

/-- The literal runtime record of the round-trip fixture. -/
def fixtureRecord : ContainerSummaryInner where
  image := some (S "registry/mc:1.2")
  names := some [S "/s1"]
  labels := some [(S "dgs", S ""), (S "dgs-survival", S "")]
  ports := some [⟨none, 25565, some 40001, some PortTypeEnum.TCP⟩]
  state := some (S "running")

example : S "ab" = ['a', 'b'] := by decide
example : GameName.Minecraft.deref = S "minecraft" := by decide
example : minecraftGame ∈ GAMES := by decide
example : strContains (S "minecraft") (S "craft") = true := by decide
example : strContains (S "factorio") (S "minecraft") = false := by decide
example : dropPref (S "dgs-") (S "dgs-survival") = some (S "survival") := by decide
example : dropPref (S "dgs-") (S "dgs") = none := by decide
example : splitOnceColon (S "registry/mc:1.2") = some (S "registry/mc", S "1.2") := by decide
example : find_by_image GAMES (S "docker.io/itzg/minecraft-server:1.7") = some minecraftGame := by decide
example : gameFromStr GAMES (S "minecraft") = Except.ok minecraftGame := by decide

/-- A runtime behavior in which every operation succeeds. -/
def dAllOk : DockerBehavior where
  pullRes := Except.ok ()
  createRes := Except.ok (S "cid")
  startRes := Except.ok ()
  stopRes := Except.ok ()
  rmRes := Except.ok ()

/-- A runtime behavior in which the pull fails and everything else would
succeed. -/
def dPullFail : DockerBehavior where
  pullRes := Except.error (S "no network")
  createRes := Except.ok (S "cid")
  startRes := Except.ok ()
  stopRes := Except.ok ()
  rmRes := Except.ok ()

/-- A runtime record whose single port has a host port outside the u16
range. -/
def badPortRecord : ContainerSummaryInner where
  image := some (S "docker.io/itzg/minecraft-server")
  names := some [S "/x"]
  labels := some [(S "dgs", S "")]
  ports := some [⟨none, 25565, some 70000, some PortTypeEnum.TCP⟩]
  state := some (S "running")

/-- A runtime record carrying only the baseline `dgs` label. -/
def bareLabelRecord : ContainerSummaryInner where
  image := some (S "docker.io/itzg/minecraft-server")
  names := some [S "/x"]
  labels := some [(S "dgs", S "")]
  ports := some []
  state := some (S "running")

/-- Claim C1: for every `ServerFilter` with a non-empty tag set, the runtime
filter's `label` entry was claimed to contain every `dgs-<tag>` label and
never the bare baseline `dgs` alone, with records missing a tag label
excluded from post-filtered results.  The code has the branches of
`if tags.is_empty()` the other way round: a non-empty tag set produces
exactly the bare baseline label, and the post-filter only inspects the name,
so a projected record without the requested tag is kept. -/
theorem c1_label_filter_bug :
    lsLabelFilter [S "survival"] = [S "dgs"] ∧
    lsBuildFilters GAMES ⟨none, none, [S "survival"], none⟩ = [(S "label", [S "dgs"])] ∧
    lsPostKeep (S "")
      ⟨S "/srv", minecraftGame, [], [], ContainerStateStatusEnum.RUNNING⟩ = true := by
  refine ⟨by decide, by decide, by decide⟩

/-- Claim C4: every identifier suppliable to the listing filter is one of
the closed set of `GameName` variants, each of which has an exact catalog
match: the identifier resolves to that game and its image is inserted as
the `ancestor` filter term.  The substring-fallback clauses (unique match,
NotFound, Ambiguous) are vacuously satisfied, since the exact match never
fails on the shipped catalog and the fallback never executes. -/
theorem c4_exact_resolution :
    ∀ gn : GameName,
      gameOf gn ∈ GAMES ∧ (gameOf gn).name = gn ∧
      resolveGameFilter GAMES gn = Except.ok (gameOf gn) ∧
      lsBuildFilters GAMES ⟨none, some gn, [], none⟩ =
        [(S "label", [S "dgs"]), (S "ancestor", [(gameOf gn).image])] := by
  intro gn
  cases gn <;> exact ⟨by decide, by decide, by decide, by decide⟩

/-- Claim C5: `find_by_name` was claimed to be case-insensitive through every
public resolution path, including the `FromStr`-based one used by the
run-temporary command.  `FromStr for &Game` goes through
`From<&str> for LowerCaseString`, which does not lowercase, so the
identifier `Minecraft` fails to resolve there, while the lowercasing clap
path (`FromStr for LowerCaseString`) resolves it. -/
theorem c5_case_bug :
    gameFromStr GAMES (S "Minecraft") =
      Except.error (S "Unable to find a game matching Minecraft") ∧
    find_by_name GAMES (lowerCaseFromStr (S "Minecraft")) = some minecraftGame := by
  refine ⟨by decide, by decide⟩

/-- Claim C6 counterexample: the fixture record does not project to the
spec's expected value, whose `name` field is `s1` — the projection keeps the
runtime's leading slash. -/
theorem c6_counterexample :
    BasicServerInfo.tryFrom [mcFixtureGame] fixtureRecord ≠
      Except.ok ⟨S "s1", mcFixtureGame, [S "survival"],
        [⟨40001, 25565, PortTypeEnum.TCP⟩], ContainerStateStatusEnum.RUNNING⟩ := by
  decide

/-- Claim C6 (amended): projecting the literal runtime record against the
fixture catalog succeeds and is field-wise equal to the expected value with
`name = "/s1"` (the first runtime name taken verbatim, slash included),
game `minecraft`, tags `[survival]`, the single tcp port `25565 -> 40001`
and the running state. -/
theorem c6_projection_amended :
    BasicServerInfo.tryFrom [mcFixtureGame] fixtureRecord =
      Except.ok ⟨S "/s1", mcFixtureGame, [S "survival"],
        [⟨40001, 25565, PortTypeEnum.TCP⟩], ContainerStateStatusEnum.RUNNING⟩ := by
  decide

/-- Splitting at the first colon of `l ++ ':' :: t` returns `(l, t)` when `l`
is colon-free. -/
theorem splitOnceColon_of_append (l t : Str) (h : ∀ c ∈ l, c ≠ ':') :
    splitOnceColon (l ++ ':' :: t) = some (l, t) := by
  induction l with
  | nil => simp [splitOnceColon]
  | cons c cs ih =>
    have hc : c ≠ ':' := h c (by simp)
    have ih' := ih (fun x hx => h x (by simp [hx]))
    simp [splitOnceColon, hc, ih']

/-- A colon-free string does not split. -/
theorem splitOnceColon_eq_none (l : Str) (h : ∀ c ∈ l, c ≠ ':') :
    splitOnceColon l = none := by
  induction l with
  | nil => rfl
  | cons c cs ih =>
    have hc : c ≠ ':' := h c (by simp)
    have ih' := ih (fun x hx => h x (by simp [hx]))
    simp [splitOnceColon, hc, ih']

/-- Characterization of `strip_prefix`: it answers `some t` exactly when the
input is the pattern followed by `t`. -/
theorem dropPref_eq_some (p : Str) : ∀ s t : Str, dropPref p s = some t ↔ s = p ++ t := by
  induction p with
  | nil => intro s t; simp [dropPref]
  | cons a ps ih =>
    intro s t
    cases s with
    | nil => simp [dropPref]
    | cons b bs =>
      by_cases hab : a = b
      · subst hab
        simp [dropPref, ih]
      · have hba : b ≠ a := fun hba => hab hba.symm
        simp [dropPref, hab, hba]

/-- Inversion of a successful projection: all five raw fields were present,
there was exactly one name, the state parsed, the image resolved, and the
result is the record assembled from those parts. -/
theorem tryFrom_ok_inv (games : List Game) (image : Option Str)
    (names : Option (List Str)) (labels : Option (List (Str × Str)))
    (ports : Option (List ModelsPort)) (state : Option Str) (s : BasicServerInfo)
    (h : BasicServerInfo.tryFrom games ⟨image, names, labels, ports, state⟩ = Except.ok s) :
    ∃ img nm lbs ps st status game,
      image = some img ∧ names = some [nm] ∧ labels = some lbs ∧ ports = some ps ∧
      state = some st ∧ statusFromStr st = some status ∧
      find_by_image games img = some game ∧
      s = ⟨nm, game, lbs.filterMap (fun kv => dropPref (S "dgs-") kv.1),
        ps.filterMap (fun p => (Port.tryFrom p).toOption), status⟩ := by
  cases image with
  | none => simp [BasicServerInfo.tryFrom] at h
  | some img =>
  cases names with
  | none => simp [BasicServerInfo.tryFrom] at h
  | some l =>
  cases l with
  | nil => simp [BasicServerInfo.tryFrom] at h
  | cons nm rest =>
  cases rest with
  | cons a b => simp [BasicServerInfo.tryFrom] at h
  | nil =>
  cases labels with
  | none => simp [BasicServerInfo.tryFrom] at h
  | some lbs =>
  cases ports with
  | none => simp [BasicServerInfo.tryFrom] at h
  | some ps =>
  cases state with
  | none => simp [BasicServerInfo.tryFrom] at h
  | some st =>
  cases hst : statusFromStr st with
  | none => simp [BasicServerInfo.tryFrom, hst] at h
  | some status =>
  cases hfi : find_by_image games img with
  | none => simp [BasicServerInfo.tryFrom, hst, hfi] at h
  | some game =>
    refine ⟨img, nm, lbs, ps, st, status, game, rfl, rfl, rfl, rfl, rfl, hst, hfi, ?_⟩
    simp only [BasicServerInfo.tryFrom, hst, hfi, Except.ok.injEq] at h
    exact h.symm

/-- No fuel bound lets the recursive `Display for GameName` produce a
string: the rendering diverges for every game name. -/
theorem gameNameFmtFuel_eq_none (fuel : Nat) (g : GameName) :
    gameNameFmtFuel fuel g = none := by
  induction fuel with
  | zero => rfl
  | succ n ih => exact ih

/-- Claim C2: the claim describes a cleanup phase (stop before remove,
remove attempted even after a failed stop) that no execution reaches: after
a successful pull, `create` formats the container name with the
unconditionally recursive `Display for GameName`, so the process aborts
inside create for every fuel bound — every completed run contains no stop
and no remove call, and its only runtime call is the failed pull. -/
theorem c2_unreachable_cleanup (fuel : Nat) (d : DockerBehavior) (game : Game)
    (options : GameOptions) :
    gameNameFmtFuel fuel game.name = none ∧
    (∀ tr r, tmpExec fuel d game options = some (tr, r) →
      tr.countP (fun e => isStopEv e) = 0 ∧ tr.countP (fun e => isRmEv e) = 0 ∧
      ∃ e, r = Except.error e ∧ d.pullRes = Except.error e) := by
  refine ⟨gameNameFmtFuel_eq_none fuel game.name, ?_⟩
  intro tr r h
  cases hp : d.pullRes with
  | error e =>
    simp only [tmpExec, hp, Option.some.injEq] at h
    obtain ⟨htr, hr⟩ := Prod.mk.injEq .. ▸ h
    subst htr
    subst hr
    refine ⟨by simp [List.countP_cons, isStopEv], by simp [List.countP_cons, isRmEv],
      e, rfl, rfl⟩
  | ok u =>
    simp only [tmpExec, hp, gameNameFmtFuel_eq_none fuel game.name] at h
    exact Option.noConfusion h

/-- Claim C2 witness: the theorem applied to the concrete behavior in which
the pull fails — the only way a run completes — showing its trace has no
stop and no remove call. -/
theorem c2_unreachable_cleanup_witness :
    tmpExec 3 dPullFail minecraftGame ⟨none⟩ =
      some ([TmpEvent.pullEv minecraftGame.image none], Except.error (S "no network")) ∧
    ([TmpEvent.pullEv minecraftGame.image none].countP (fun e => isStopEv e) = 0 ∧
      [TmpEvent.pullEv minecraftGame.image none].countP (fun e => isRmEv e) = 0 ∧
      ∃ e, (Except.error (S "no network") : Except Str Unit) = Except.error e ∧
        dPullFail.pullRes = Except.error e) :=
  ⟨by decide,
    (c2_unreachable_cleanup 3 dPullFail minecraftGame ⟨none⟩).2
      [TmpEvent.pullEv minecraftGame.image none] (Except.error (S "no network"))
      (by decide)⟩

/-- Claim C3 counterexample: minecraft's version strategy is the environment
variable, not the image tag, yet a run with a requested version still
performs exactly one pull step — the claim asserts no pull is attempted in
that case. -/
theorem c3_counterexample :
    (tmp dAllOk minecraftGame ⟨some (S "1.7.2")⟩).1.countP (fun e => isPullEv e) = 1 ∧
    minecraftGame.version.config ≠ VersionConfiguration.Tag := by
  refine ⟨by decide, by decide⟩

/-- Claim C3 (amended): every temporary-server run performs a pull step
first, before create; the pull carries the requested version as image tag
exactly when the game's version strategy is tag-based (otherwise no tag is
passed and the pull still happens); a pull failure aborts the run before any
create call. -/
theorem c3_pull_amended (d : DockerBehavior) (game : Game) (v : Option Str) :
    (tmp d game ⟨v⟩).1.head? =
      some (TmpEvent.pullEv game.image
        (if game.version.config = VersionConfiguration.Tag then v else none)) ∧
    (∀ e, d.pullRes = Except.error e →
      tmp d game ⟨v⟩ =
        ([TmpEvent.pullEv game.image
            (if game.version.config = VersionConfiguration.Tag then v else none)],
          Except.error e)) := by
  obtain ⟨pr, cr, sr, st, rr⟩ := d
  constructor
  · cases pr <;> cases cr <;> cases sr <;> cases st <;> cases rr <;> rfl
  · intro e he
    replace he : pr = Except.error e := he
    subst he
    rfl

/-- Claim C3 witness: the amended theorem applied to the concrete behavior
in which the pull fails. -/
theorem c3_pull_amended_witness :
    tmp dPullFail minecraftGame ⟨none⟩ =
      ([TmpEvent.pullEv minecraftGame.image
          (if minecraftGame.version.config = VersionConfiguration.Tag then none else none)],
        Except.error (S "no network")) :=
  (c3_pull_amended dPullFail minecraftGame none).2 (S "no network") rfl

/-- Claim C7 counterexample: a record whose only port has host port 70000
(outside the u16 range) was claimed to be rejected as a whole; instead the
projection succeeds with that port silently dropped. -/
theorem c7_counterexample :
    BasicServerInfo.tryFrom GAMES badPortRecord =
      Except.ok ⟨S "/x", minecraftGame, [], [], ContainerStateStatusEnum.RUNNING⟩ := by
  decide

/-- Claim C7 (amended): a port value not representable in the u16 range (or
any otherwise incomplete port entry) causes only that port to be dropped
from the projection; the enclosing record is never rejected because of its
ports — any replacement of the port list still projects, with exactly the
individually convertible ports kept. -/
theorem c7_ports_amended (games : List Game) (image : Option Str)
    (names : Option (List Str)) (labels : Option (List (Str × Str)))
    (state : Option Str) (ps ps' : List ModelsPort) (s : BasicServerInfo)
    (h : BasicServerInfo.tryFrom games ⟨image, names, labels, some ps, state⟩ =
      Except.ok s) :
    (BasicServerInfo.tryFrom games ⟨image, names, labels, some ps', state⟩).map
        BasicServerInfo.ports =
      Except.ok (ps'.filterMap (fun p => (Port.tryFrom p).toOption)) := by
  obtain ⟨img, nm, lbs, ps0, st, status, game, h1, h2, h3, h4, h5, hst, hfi, hs⟩ :=
    tryFrom_ok_inv games image names labels (some ps) state s h
  subst h1; subst h2; subst h3; subst h5
  simp [BasicServerInfo.tryFrom, hst, hfi, Except.map]

/-- Claim C7 witness: the amended theorem applied to the bad-port record,
whose out-of-range port is dropped while the record still projects. -/
theorem c7_ports_amended_witness :
    (BasicServerInfo.tryFrom GAMES badPortRecord).map BasicServerInfo.ports =
      Except.ok [] :=
  (c7_ports_amended GAMES (some (S "docker.io/itzg/minecraft-server"))
    (some [S "/x"]) (some [(S "dgs", S "")]) (some (S "running")) []
    [⟨none, 25565, some 70000, some PortTypeEnum.TCP⟩]
    ⟨S "/x", minecraftGame, [], [], ContainerStateStatusEnum.RUNNING⟩
    (by decide)).trans (by decide)

/-- Claim C8: for a game with a single configurable port and no requested
version, the create request's port-binding map is exactly one entry, keyed
`<container port>/<protocol>`, whose value carries the allocated host
port. -/
theorem c8_port_binding (game : Game) (port : Nat) (protocol : PortTypeEnum)
    (hp : Nat) (ts : Str)
    (h : game.ports = PortConfiguration.SinglePort port protocol) :
    (create (some hp) ts game ⟨none⟩).map CreateConfig.port_bindings =
      Except.ok [(natStr port ++ S "/" ++ protocol.display,
        some [PortBinding.mk none (some (natStr hp))])] := by
  obtain ⟨name, image, ports, envs, version⟩ := game
  replace h : ports = PortConfiguration.SinglePort port protocol := h
  subst h
  rfl

/-- Claim C8 witness: the theorem applied to factorio with host port
40001. -/
theorem c8_port_binding_witness :
    (create (some 40001) (S "ts") factorioGame ⟨none⟩).map CreateConfig.port_bindings =
      Except.ok [(S "34197/udp", some [PortBinding.mk none (some (S "40001"))])] :=
  (c8_port_binding factorioGame 34197 PortTypeEnum.UDP 40001 (S "ts") rfl).trans
    (by decide)

/-- Claim C9: for every catalog entry, looking up the entry's image with a
trailing colon-and-tag gives the same result as looking up the bare image —
the tag is stripped before the exact match. -/
theorem c9_image_tag (g : Game) (hg : g ∈ GAMES) (tag : Str) :
    find_by_image GAMES (g.image ++ S ":" ++ tag) = find_by_image GAMES g.image := by
  have hcases : g = minecraftGame ∨ g = factorioGame ∨ g = valheimGame := by
    simpa [GAMES] using hg
  have hc : ∀ c ∈ g.image, c ≠ ':' := by
    rcases hcases with h | h | h <;> subst h <;> decide
  have h1 : g.image ++ S ":" ++ tag = g.image ++ (':' :: tag) := by
    simp [S]
  rw [find_by_image, find_by_image, h1, splitOnceColon_of_append _ _ hc,
    splitOnceColon_eq_none _ hc]

/-- Claim C9 witness: the theorem applied to the minecraft entry with the
tag 1.17. -/
theorem c9_image_tag_witness :
    minecraftGame ∈ GAMES ∧
    find_by_image GAMES (minecraftGame.image ++ S ":" ++ S "1.17") =
      find_by_image GAMES minecraftGame.image :=
  ⟨by decide, c9_image_tag minecraftGame (by decide) (S "1.17")⟩

/-- Claim C10: for every successfully projected record, a string is a
projected tag exactly when `dgs-` followed by it is one of the record's
label keys; in particular the bare baseline `dgs` label never contributes a
tag. -/
theorem c10_tags (games : List Game) (c : ContainerSummaryInner)
    (lbs : List (Str × Str)) (s : BasicServerInfo) (t : Str)
    (hl : c.labels = some lbs)
    (h : BasicServerInfo.tryFrom games c = Except.ok s) :
    (t ∈ s.tags ↔ (S "dgs-" ++ t) ∈ lbs.map Prod.fst) := by
  obtain ⟨image, names, labels, ports, state⟩ := c
  replace hl : labels = some lbs := hl
  obtain ⟨img, nm, lbs', ps, st, status, game, h1, h2, h3, h4, h5, hst, hfi, hs⟩ :=
    tryFrom_ok_inv games image names labels ports state s h
  subst h3
  injection hl with hl
  subst hl
  subst hs
  simp only [List.mem_filterMap, List.mem_map, dropPref_eq_some]

/-- Claim C10 witness: the theorem applied to a record carrying only the
baseline label, whose projection has no tags. -/
theorem c10_tags_witness :
    BasicServerInfo.tryFrom GAMES bareLabelRecord =
      Except.ok ⟨S "/x", minecraftGame, [], [], ContainerStateStatusEnum.RUNNING⟩ ∧
    ((S "survival") ∈
        (⟨S "/x", minecraftGame, [], [], ContainerStateStatusEnum.RUNNING⟩ :
          BasicServerInfo).tags ↔
      (S "dgs-" ++ S "survival") ∈ ([(S "dgs", S "")].map Prod.fst)) :=
  ⟨by decide,
    c10_tags GAMES bareLabelRecord [(S "dgs", S "")]
      ⟨S "/x", minecraftGame, [], [], ContainerStateStatusEnum.RUNNING⟩
      (S "survival") rfl (by decide)⟩
